import Mathlib

/-!
Verification development for the client-side financial-metrics aggregation
logic of the ai-expense-tracker-client repository.

The aggregation code lives in the dashboard views
(`src/pages/Dashboard/Overview.tsx`, `src/pages/Dashboard/Budgets.tsx`,
`src/pages/Dashboard/Expenses.tsx`, and the Reports/Suggestions view).
It is pure arithmetic over in-memory lists, so it is embedded shallowly:

* JavaScript numbers are modelled as exact rationals extended with the
  special values `NaN`, `+Infinity` and `-Infinity` (type `JsNum`).
  Finite arithmetic is idealized as exact rational arithmetic; the
  special-value propagation rules of IEEE-754 / JS (`x/0`, `NaN`
  comparisons, infinity arithmetic) are modelled explicitly, because the
  claims under study hinge on them.
* A transaction's `amount` field arrives from the API as an arbitrary JS
  value; the shapes that matter to the coercions in the source
  (`Number(x)` in Overview.tsx, `parseFloat(x) || 0` in the Reports view)
  are modelled by `RawAmount`.
* Dates are compared in the source only through `getMonth()` /
  `getFullYear()`, so a transaction's date is modelled by its calendar
  year and month (0-based, as in JS).
-/

/-- A JavaScript number: a finite (idealized exact) rational, `+Infinity`,
`-Infinity`, or `NaN`. -/
inductive JsNum where
  | fin : ℚ → JsNum
  | posInf : JsNum
  | negInf : JsNum
  | nan : JsNum
deriving DecidableEq, Repr

namespace JsNum

/-- JS addition `x + y` on numbers, with IEEE special-value rules:
`NaN` is absorbing, opposite infinities give `NaN`, an infinity plus a
finite value keeps the infinity. -/
def jsAdd : JsNum → JsNum → JsNum
  | nan, _ => nan
  | _, nan => nan
  | posInf, negInf => nan
  | negInf, posInf => nan
  | posInf, _ => posInf
  | _, posInf => posInf
  | negInf, _ => negInf
  | _, negInf => negInf
  | fin a, fin b => fin (a + b)

/-- JS multiplication `x * y` on numbers, with IEEE special-value rules:
`NaN` absorbing, `0 * Infinity = NaN`, signs of infinities respected. -/
def jsMul : JsNum → JsNum → JsNum
  | nan, _ => nan
  | _, nan => nan
  | posInf, posInf => posInf
  | posInf, negInf => negInf
  | negInf, posInf => negInf
  | negInf, negInf => posInf
  | posInf, fin b => if b = 0 then nan else if 0 < b then posInf else negInf
  | fin a, posInf => if a = 0 then nan else if 0 < a then posInf else negInf
  | negInf, fin b => if b = 0 then nan else if 0 < b then negInf else posInf
  | fin a, negInf => if a = 0 then nan else if 0 < a then negInf else posInf
  | fin a, fin b => fin (a * b)

/-- JS division `x / y` on numbers. Division by zero never faults: it
yields `NaN` for `0 / 0` and a signed infinity otherwise. Finite results
are idealized as exact rationals. -/
def jsDiv : JsNum → JsNum → JsNum
  | nan, _ => nan
  | _, nan => nan
  | posInf, posInf => nan
  | posInf, negInf => nan
  | negInf, posInf => nan
  | negInf, negInf => nan
  | posInf, fin b => if 0 ≤ b then posInf else negInf
  | negInf, fin b => if 0 ≤ b then negInf else posInf
  | fin _, posInf => fin 0
  | fin _, negInf => fin 0
  | fin a, fin b =>
      if b = 0 then (if a = 0 then nan else if 0 < a then posInf else negInf)
      else fin (a / b)

/-- JS strict comparison `x > y` on numbers: any comparison involving
`NaN` is false; infinities compare as expected. -/
def jsGT : JsNum → JsNum → Bool
  | nan, _ => false
  | _, nan => false
  | posInf, posInf => false
  | posInf, _ => true
  | _, posInf => false
  | negInf, negInf => false
  | negInf, _ => false
  | _, negInf => true
  | fin a, fin b => decide (b < a)

end JsNum

open JsNum

/-- The shapes of the raw `amount` field (a JS value from the API) that
the source's coercions distinguish: a proper number, a numeric string, a
non-numeric string, `null`, and `undefined`. -/
inductive RawAmount where
  | num : ℚ → RawAmount
  | numStr : ℚ → RawAmount
  | badStr : RawAmount
  | nullV : RawAmount
  | undef : RawAmount
deriving DecidableEq, Repr

/-- JS `Number(x)` coercion as used in Overview.tsx: numbers and numeric
strings parse, `null` coerces to `0`, while a non-numeric string or
`undefined` coerce to `NaN`. -/
def jsNumber : RawAmount → JsNum
  | RawAmount.num q => JsNum.fin q
  | RawAmount.numStr q => JsNum.fin q
  | RawAmount.badStr => JsNum.nan
  | RawAmount.nullV => JsNum.fin 0
  | RawAmount.undef => JsNum.nan

/-- The Reports view's coercion `parseFloat(x) || 0`: `parseFloat` yields
`NaN` on non-numeric strings, `null` and `undefined`, and the `|| 0`
replaces any falsy result (`NaN` or `0`) by `0`, so the result is always a
finite number. -/
def parseFloatOrZero : RawAmount → ℚ
  | RawAmount.num q => q
  | RawAmount.numStr q => q
  | RawAmount.badStr => 0
  | RawAmount.nullV => 0
  | RawAmount.undef => 0

/-- A transaction (expense or deposit) as consumed by the aggregation
code: its calendar date reduced to the components the source reads
(`getFullYear()` and 0-based `getMonth()`), its raw `amount`, and its
optional category name (`expense.category?.name`). -/
structure DashTx where
  dateYear : Int
  dateMonth : Int
  amount : RawAmount
  category : Option String
deriving DecidableEq, Repr

/-! ## Overview.tsx: totals, percent change, per-month sums, trend -/

/-- Overview.tsx `totalExpenses` (and `totalIncome`):
`list.reduce((sum, e) => Number(sum) + Number(e.amount), 0)`.
`Number(sum)` on an accumulator that is already a number is the identity,
so the step is JS addition of the coerced amount. -/
def totalExpensesOverview (l : List DashTx) : JsNum :=
  l.foldl (fun sum e => jsAdd sum (jsNumber e.amount)) (JsNum.fin 0)

/-- Reports view `totalExpenses` (and `totalDeposits`):
`reduce((sum, e) => sum + (parseFloat(e.amount) || 0), 0)`; every
malformed amount contributes `0`, so the accumulator stays finite. -/
def totalExpensesReports (l : List DashTx) : ℚ :=
  l.foldl (fun sum e => sum + parseFloatOrZero e.amount) 0

/-- Overview.tsx `percentChange(current, prev)`:
returns `0` when both are `0`, `100` when only `prev` is `0`, and
`(current - prev) / Math.abs(prev) * 100` otherwise. -/
def percentChange (current prev : ℚ) : ℚ :=
  if prev = 0 ∧ current = 0 then 0
  else if prev = 0 then 100
  else (current - prev) / |prev| * 100

/-- Overview.tsx `sumForMonth(items, dateKey, month, year)`: filter the
items whose date has the given `getMonth()` / `getFullYear()` components,
then reduce with `sum + Number(item.amount)`. -/
def sumForMonth (items : List DashTx) (month year : Int) : JsNum :=
  (items.filter (fun it => it.dateMonth = month ∧ it.dateYear = year)).foldl
    (fun sum it => jsAdd sum (jsNumber it.amount)) (JsNum.fin 0)

/-- The category label Overview.tsx derives for an expense:
`expense.category?.name || "Other"` — a missing category *and* an empty
name string both fall back to `"Other"`. -/
def catNameOverview (t : DashTx) : String :=
  match t.category with
  | none => "Other"
  | some s => if s = "" then "Other" else s

/-- The category label the Reports view derives:
`expense.category?.name || "Uncategorized"`. -/
def catNameReports (t : DashTx) : String :=
  match t.category with
  | none => "Uncategorized"
  | some s => if s = "" then "Uncategorized" else s

/-- One step of the Overview.tsx `expensesByCategory` reducer on the
accumulator object, modelled as an insertion-ordered association list of
`(name, amount, count)`: a fresh key is appended with
`{amount: 0, count: 0}` and then updated; an existing key is updated in
place (JS objects keep string-key insertion order). -/
def bumpCategory (acc : List (String × JsNum × ℕ)) (name : String)
    (amt : JsNum) : List (String × JsNum × ℕ) :=
  match acc with
  | [] => [(name, jsAdd (JsNum.fin 0) amt, 1)]
  | (k, s, c) :: rest =>
      if k = name then (k, jsAdd s amt, c + 1) :: rest
      else (k, s, c) :: bumpCategory rest name amt

/-- Overview.tsx `expensesByCategory`: reduce over the expense list,
grouping by `category?.name || "Other"` and accumulating
`amount += Number(expense.amount)` and `count += 1` per key. The list
order is the object's key insertion order, which is what
`Object.values` later exposes. -/
def expensesByCategory (l : List DashTx) : List (String × JsNum × ℕ) :=
  l.foldl (fun acc t => bumpCategory acc (catNameOverview t) (jsNumber t.amount)) []

/-- One step of the Reports view's `categoryBreakdown` reducer:
`acc[name] = (acc[name] || 0) + (parseFloat(e.amount) || 0)` on an
insertion-ordered record of plain numbers. -/
def bumpCategoryReports (acc : List (String × ℚ)) (name : String)
    (amt : ℚ) : List (String × ℚ) :=
  match acc with
  | [] => [(name, 0 + amt)]
  | (k, v) :: rest =>
      if k = name then (k, v + amt) :: rest
      else (k, v) :: bumpCategoryReports rest name amt

/-- Reports view `categoryBreakdown`: group expenses by
`category?.name || "Uncategorized"`, summing `parseFloat(amount) || 0`. -/
def categoryBreakdown (l : List DashTx) : List (String × ℚ) :=
  l.foldl (fun acc t => bumpCategoryReports acc (catNameReports t) (parseFloatOrZero t.amount)) []

/-- Stable insertion of an entry into a list sorted by amount descending:
the new entry goes after every already-placed entry whose amount is `≥`
its own, which is how a stable sort with comparator `(a, b) => b - a`
orders equal keys. -/
def insertByAmountDesc (x : String × ℚ) : List (String × ℚ) → List (String × ℚ)
  | [] => [x]
  | y :: ys => if x.2 ≤ y.2 then y :: insertByAmountDesc x ys else x :: y :: ys

/-- The Reports view's ranked category list:
`Object.entries(categoryBreakdown).sort(([,a],[,b]) => b - a)` — a stable
sort of the insertion-ordered entries by amount descending. -/
def rankedCategories (l : List (String × ℚ)) : List (String × ℚ) :=
  l.foldl (fun acc x => insertByAmountDesc x acc) []

/-- JS `new Date(year, month, 1)` month normalization: an out-of-range
0-based month index is folded into the year, exactly Euclidean division
by 12 (`Int.ediv`/`Int.emod` give a remainder in `[0, 12)`). Returns the
normalized `(fullYear, month)` pair. -/
def normalizeMonth (year month : Int) : Int × Int :=
  (year + month / 12, month % 12)

/-- A monthly-trend entry as built by Overview.tsx: the calendar month it
describes (the source keeps only a display label; the model keeps the
normalized year/month the label is derived from) and the two sums. -/
structure TrendEntry where
  year : Int
  month : Int
  expenses : JsNum
  deposits : JsNum
deriving DecidableEq, Repr

/-- The body of one iteration of the Overview.tsx trend loop for offset
`i`: build `new Date(nowYear, nowMonth - i, 1)`, filter each list to the
transactions whose date matches that month and year, and reduce each with
`Number(sum) + Number(x.amount)`. -/
def trendEntry (expenses deposits : List DashTx) (nowYear nowMonth i : Int) :
    TrendEntry :=
  let ym := normalizeMonth nowYear (nowMonth - i)
  { year := ym.1
    month := ym.2
    expenses :=
      ((expenses.filter (fun t => t.dateMonth = ym.2 ∧ t.dateYear = ym.1)).foldl
        (fun sum e => jsAdd sum (jsNumber e.amount)) (JsNum.fin 0))
    deposits :=
      ((deposits.filter (fun t => t.dateMonth = ym.2 ∧ t.dateYear = ym.1)).foldl
        (fun sum d => jsAdd sum (jsNumber d.amount)) (JsNum.fin 0)) }

/-- Overview.tsx `monthlyTrend`: `for (let i = 5; i >= 0; i--)` pushing
one entry per iteration, so offsets run `5, 4, 3, 2, 1, 0` and the entry
for the oldest month comes first. -/
def monthlyTrend (expenses deposits : List DashTx) (nowYear nowMonth : Int) :
    List TrendEntry :=
  (List.range 6).foldl
    (fun acc j => acc ++ [trendEntry expenses deposits nowYear nowMonth (5 - (j : Int))])
    []

/-- Overview.tsx `recentExpenses = allExpenses.slice(0, 5)`. -/
def recentExpenses (l : List DashTx) : List DashTx :=
  l.take 5

/-- Overview.tsx `recentDeposits = allDeposits.slice(0, 5)`. -/
def recentDeposits (l : List DashTx) : List DashTx :=
  l.take 5

/-! ## Budgets.tsx: usage percentage, status colours, remaining amounts -/

/-- A budget record as consumed by Budgets.tsx. -/
structure Budget where
  month : Int
  year : Int
  amountLimit : ℚ
  spentAmount : ℚ
  thresholdPercentage : ℚ
deriving DecidableEq, Repr

/-- Budgets.tsx row computation
`usagePercentage = (budget.spentAmount / budget.amountLimit) * 100` —
an *unguarded* JS division followed by a multiplication. -/
def usagePercentage (spent limit : ℚ) : JsNum :=
  jsMul (jsDiv (JsNum.fin spent) (JsNum.fin limit)) (JsNum.fin 100)

/-- Budgets.tsx `isOverBudget = usagePercentage > 100`. -/
def isOverBudget (spent limit : ℚ) : Bool :=
  jsGT (usagePercentage spent limit) (JsNum.fin 100)

/-- Budgets.tsx `isNearLimit = usagePercentage > budget.thresholdPercentage`. -/
def isNearLimit (spent limit threshold : ℚ) : Bool :=
  jsGT (usagePercentage spent limit) (JsNum.fin threshold)

/-- The traffic-light status a budget row renders with: over-budget takes
precedence, then near-limit, else on-track (the nested conditional used
for the row's colour and warning icon). -/
inductive BudgetStatus where
  | OnTrack : BudgetStatus
  | NearLimit : BudgetStatus
  | OverBudget : BudgetStatus
deriving DecidableEq, Repr

/-- The status of a budget row as Budgets.tsx classifies it. -/
def budgetUsageStatus (spent limit threshold : ℚ) : BudgetStatus :=
  if isOverBudget spent limit then BudgetStatus.OverBudget
  else if isNearLimit spent limit threshold then BudgetStatus.NearLimit
  else BudgetStatus.OnTrack

/-- Budgets.tsx table "Remaining" cell:
`Math.max(0, budget.amountLimit - budget.spentAmount)`. -/
def remainingCell (b : Budget) : ℚ :=
  max 0 (b.amountLimit - b.spentAmount)

/-- One row of the Budgets.tsx chart data. -/
structure ChartRow where
  month : Int
  limit : ℚ
  spent : ℚ
  remaining : ℚ
deriving DecidableEq, Repr

/-- Budgets.tsx `chartData`: one row per (filtered) budget with
`remaining: Math.max(0, budget.amountLimit - budget.spentAmount)`. -/
def chartData (budgets : List Budget) : List ChartRow :=
  budgets.map (fun b =>
    { month := b.month
      limit := b.amountLimit
      spent := b.spentAmount
      remaining := max 0 (b.amountLimit - b.spentAmount) })

/-! ## Algebra of JS addition -/

/-- A right-to-left sum of a list of JS numbers, the specification-side
notion of "the sum of the amounts". -/
def jsSumR : List JsNum → JsNum
  | [] => JsNum.fin 0
  | x :: xs => jsAdd x (jsSumR xs)

theorem jsAdd_comm (a b : JsNum) : jsAdd a b = jsAdd b a := by
  cases a <;> cases b <;> simp [jsAdd, add_comm]

theorem jsAdd_zero_right (a : JsNum) : jsAdd a (JsNum.fin 0) = a := by
  cases a <;> simp [jsAdd]

theorem jsAdd_assoc (a b c : JsNum) :
    jsAdd (jsAdd a b) c = jsAdd a (jsAdd b c) := by
  cases a <;> cases b <;> cases c <;> simp [jsAdd, add_assoc]

/-! ## Helper characterizations for the budget-usage computation -/

theorem usagePercentage_of_ne (spent limit : ℚ) (h : limit ≠ 0) :
    usagePercentage spent limit = JsNum.fin (spent / limit * 100) := by
  simp [usagePercentage, jsDiv, jsMul, h]

theorem usagePercentage_zero_pos (spent : ℚ) (h : 0 < spent) :
    usagePercentage spent 0 = JsNum.posInf := by
  norm_num [usagePercentage, jsDiv, jsMul, h.ne', h]

theorem usagePercentage_zero_zero : usagePercentage 0 0 = JsNum.nan := by
  norm_num [usagePercentage, jsDiv, jsMul]

/-- C1 — counterexample. The claim asserts that equality at the limit
yields `OnTrack`; at `spent = 100`, `limit = 100`, `threshold = 80` the
code computes `usagePercentage = 100`, which is not `> 100` but is
`> 80`, so the row is classified `NearLimit`, not `OnTrack`. -/
theorem budgetStatus_limit_equality_counterexample :
    budgetUsageStatus 100 100 80 = BudgetStatus.NearLimit ∧
    budgetUsageStatus 100 100 80 ≠ BudgetStatus.OnTrack := by
  have h : budgetUsageStatus 100 100 80 = BudgetStatus.NearLimit := by
    norm_num [budgetUsageStatus, isOverBudget, isNearLimit, usagePercentage,
      jsDiv, jsMul, jsGT]
  exact ⟨h, by rw [h]; decide⟩

/-- C1 — amended. On the documented domain (`spent, limit ≥ 0`,
`threshold ≥ 0`) the status is `OverBudget` exactly when `spent > limit`,
`NearLimit` exactly when not over and `spent/limit*100 > threshold`, and
`OnTrack` otherwise — strict `>` throughout, so equality at the threshold
(80/100/80) and equality at the limit never trigger `OverBudget`;
but equality at the limit yields `NearLimit` (usage 100 exceeds a
threshold below 100), not `OnTrack`; it yields `OnTrack` only when the
threshold is 100. -/
theorem budgetUsageStatus_spec (spent limit threshold : ℚ)
    (hs : 0 ≤ spent) (hl : 0 ≤ limit) (ht : 0 ≤ threshold) :
    (budgetUsageStatus spent limit threshold = BudgetStatus.OverBudget ↔
      limit < spent) ∧
    (budgetUsageStatus spent limit threshold = BudgetStatus.NearLimit ↔
      ¬ limit < spent ∧ threshold < spent / limit * 100) ∧
    (budgetUsageStatus spent limit threshold = BudgetStatus.OnTrack ↔
      ¬ limit < spent ∧ ¬ threshold < spent / limit * 100) ∧
    budgetUsageStatus 80 100 80 = BudgetStatus.OnTrack ∧
    budgetUsageStatus 81 100 80 = BudgetStatus.NearLimit ∧
    budgetUsageStatus 101 100 80 = BudgetStatus.OverBudget ∧
    budgetUsageStatus 100 100 80 = BudgetStatus.NearLimit ∧
    budgetUsageStatus 100 100 100 = BudgetStatus.OnTrack := by
  refine ⟨?_, ?_, ?_, ?_, ?_, ?_, ?_, ?_⟩
  case _ | _ | _ =>
    rcases eq_or_lt_of_le hl with hl0 | hl0
    · rw [← hl0]
      rcases eq_or_lt_of_le hs with hs0 | hs0
      · rw [← hs0]
        have hstat : budgetUsageStatus 0 0 threshold = BudgetStatus.OnTrack := by
          simp [budgetUsageStatus, isOverBudget, isNearLimit, usagePercentage,
            jsDiv, jsMul, jsGT]
        simp [hstat, div_zero, not_lt.mpr ht]
      · have hstat : budgetUsageStatus spent 0 threshold = BudgetStatus.OverBudget := by
          norm_num [budgetUsageStatus, isOverBudget, isNearLimit, usagePercentage,
            jsDiv, jsMul, jsGT, hs0.ne', hs0]
        simp [hstat, hs0]
    · have hne : limit ≠ 0 := hl0.ne'
      have hover : ((100 : ℚ) < spent / limit * 100) ↔ limit < spent := by
        rw [div_mul_eq_mul_div, lt_div_iff₀ hl0, mul_comm (100 : ℚ) limit]
        exact mul_lt_mul_right (by norm_num)
      simp only [budgetUsageStatus, isOverBudget, isNearLimit,
        usagePercentage_of_ne spent limit hne, jsGT]
      by_cases h1 : limit < spent
      · simp [decide_eq_true_eq, hover, h1]
      · by_cases h2 : threshold < spent / limit * 100
        · simp [decide_eq_true_eq, hover, h1, h2]
        · simp [decide_eq_true_eq, hover, h1, h2]
  all_goals norm_num [budgetUsageStatus, isOverBudget, isNearLimit,
    usagePercentage, jsDiv, jsMul, jsGT]

/-- C1 — witness: the amended characterization applied at
`spent = 80`, `limit = 100`, `threshold = 80`. -/
theorem budgetUsageStatus_spec_witness :
    ((0 : ℚ) ≤ 80 ∧ (0 : ℚ) ≤ 100 ∧ (0 : ℚ) ≤ 80) ∧
    (budgetUsageStatus 80 100 80 = BudgetStatus.OverBudget ↔ (100 : ℚ) < 80) :=
  ⟨⟨by norm_num, by norm_num, by norm_num⟩,
   (budgetUsageStatus_spec 80 100 80 (by norm_num) (by norm_num) (by norm_num)).1⟩

/-- C2: `percentChange` implements exactly the three-way branch — `0`
when both arguments are `0`, `100` when only the previous value is `0`,
and `(current - previous) / |previous| * 100` otherwise (the division
only happens under the guard `previous ≠ 0`, so it never divides by
zero); in particular `percentChange 0 0 = 0`, `percentChange 5 0 = 100`
and `percentChange 50 100 = -50`. -/
theorem percentChange_spec :
    (∀ current prev : ℚ, prev = 0 → current = 0 → percentChange current prev = 0) ∧
    (∀ current prev : ℚ, prev = 0 → current ≠ 0 → percentChange current prev = 100) ∧
    (∀ current prev : ℚ, prev ≠ 0 →
      percentChange current prev = (current - prev) / |prev| * 100) ∧
    percentChange 0 0 = 0 ∧ percentChange 5 0 = 100 ∧ percentChange 50 100 = -50 := by
  refine ⟨?_, ?_, ?_, ?_, ?_, ?_⟩
  · intro c p hp hc; simp [percentChange, hp, hc]
  · intro c p hp hc; simp [percentChange, hp, hc]
  · intro c p hp; simp [percentChange, hp]
  · norm_num [percentChange]
  · norm_num [percentChange]
  · norm_num [percentChange]

/-- C2 — witness: the three branches applied at the spec's sample
inputs `(0,0)`, `(5,0)` and `(50,100)`. -/
theorem percentChange_spec_witness :
    percentChange 0 0 = 0 ∧ percentChange 5 0 = 100 ∧
      percentChange 50 100 = (50 - 100) / |(100 : ℚ)| * 100 :=
  ⟨percentChange_spec.1 0 0 rfl rfl,
   percentChange_spec.2.1 5 0 rfl (by norm_num),
   percentChange_spec.2.2.1 50 100 (by norm_num)⟩

/-- C3 — counterexample. The claim asserts that at `limit = 0` the
usage percentage is `0` when `spent = 0` and otherwise a well-defined
sentinel rather than a raw division result, the division being guarded.
The code (Budgets.tsx `usagePercentage`) has no guard: at
`spent = 0, limit = 0` it produces the raw JS result `NaN` (not `0`),
and at `spent = 5, limit = 0` it produces raw `Infinity`. -/
theorem usagePercentage_raw_at_zero_limit :
    usagePercentage 0 0 = JsNum.nan ∧
    usagePercentage 0 0 ≠ JsNum.fin 0 ∧
    usagePercentage 5 0 = JsNum.posInf := by
  refine ⟨usagePercentage_zero_zero, ?_, usagePercentage_zero_pos 5 (by norm_num)⟩
  rw [usagePercentage_zero_zero]; decide

/-- C3 — amended. The computation never faults (JS division is total),
but it is unguarded: with `limit = 0` it yields the raw division result —
`NaN` when `spent = 0` (which the status logic then classifies `OnTrack`,
since `NaN` comparisons are false) and `+Infinity` when `spent > 0`
(classified `OverBudget`); with `limit ≠ 0` it is the finite percentage
`spent / limit * 100`. -/
theorem usagePercentage_unguarded (spent limit threshold : ℚ) (hs : 0 < spent) :
    usagePercentage spent 0 = JsNum.posInf ∧
    usagePercentage 0 0 = JsNum.nan ∧
    (limit ≠ 0 → usagePercentage spent limit = JsNum.fin (spent / limit * 100)) ∧
    budgetUsageStatus spent 0 threshold = BudgetStatus.OverBudget ∧
    budgetUsageStatus 0 0 threshold = BudgetStatus.OnTrack := by
  refine ⟨usagePercentage_zero_pos spent hs, usagePercentage_zero_zero,
    fun h => usagePercentage_of_ne spent limit h, ?_, ?_⟩
  · simp [budgetUsageStatus, isOverBudget, isNearLimit,
      usagePercentage_zero_pos spent hs, jsGT]
  · simp [budgetUsageStatus, isOverBudget, isNearLimit,
      usagePercentage_zero_zero, jsGT]

/-- C3 — witness: the amended statement applied at
`spent = 5`, `limit = 4`, `threshold = 3`. -/
theorem usagePercentage_unguarded_witness :
    (0 : ℚ) < 5 ∧
    (usagePercentage 5 0 = JsNum.posInf ∧
     usagePercentage 0 0 = JsNum.nan ∧
     ((4 : ℚ) ≠ 0 → usagePercentage 5 4 = JsNum.fin (5 / 4 * 100)) ∧
     budgetUsageStatus 5 0 3 = BudgetStatus.OverBudget ∧
     budgetUsageStatus 0 0 3 = BudgetStatus.OnTrack) :=
  ⟨by norm_num, usagePercentage_unguarded 5 4 3 (by norm_num)⟩

/-! ## Sums: characterizations and order independence -/

theorem jsAdd_zero_left (a : JsNum) : jsAdd (JsNum.fin 0) a = a := by
  rw [jsAdd_comm, jsAdd_zero_right]

theorem foldl_jsAdd_map_aux {α : Type} (f : α → JsNum) (l : List α) :
    ∀ i : JsNum, l.foldl (fun s e => jsAdd s (f e)) i = jsAdd i (jsSumR (l.map f)) := by
  induction l with
  | nil => intro i; simp [jsSumR, jsAdd_zero_right]
  | cons x xs ih =>
      intro i
      simp only [List.foldl_cons, List.map_cons, jsSumR]
      rw [ih, jsAdd_assoc]

theorem totalExpensesOverview_eq_jsSumR (l : List DashTx) :
    totalExpensesOverview l =
      jsSumR (l.map (fun t => jsNumber t.amount)) := by
  rw [totalExpensesOverview, foldl_jsAdd_map_aux, jsAdd_zero_left]

theorem foldl_add_map_aux {α : Type} (f : α → ℚ) (l : List α) :
    ∀ i : ℚ, l.foldl (fun s e => s + f e) i = i + (l.map f).sum := by
  induction l with
  | nil => intro i; simp
  | cons x xs ih =>
      intro i
      simp only [List.foldl_cons, List.map_cons, List.sum_cons]
      rw [ih, add_assoc]

theorem totalExpensesReports_eq_sum (l : List DashTx) :
    totalExpensesReports l = (l.map (fun t => parseFloatOrZero t.amount)).sum := by
  rw [totalExpensesReports, foldl_add_map_aux, zero_add]

/-- C6 — counterexample. The claim asserts every non-numeric/malformed
amount contributes `0` instead of poisoning the sum. In the Overview
totals (`Number(sum) + Number(e.amount)`) a non-numeric string amount
coerces to `NaN`, which poisons the whole sum: a singleton malformed
list sums to `NaN`, not `0`, and a malformed entry turns an otherwise
finite total (`7`) into `NaN`. -/
theorem sumAmounts_malformed_poisons :
    totalExpensesOverview [⟨2024, 0, RawAmount.badStr, none⟩] = JsNum.nan ∧
    totalExpensesOverview [⟨2024, 0, RawAmount.badStr, none⟩] ≠ JsNum.fin 0 ∧
    totalExpensesOverview
      [⟨2024, 0, RawAmount.num 7, none⟩, ⟨2024, 0, RawAmount.badStr, none⟩] =
      JsNum.nan := by
  refine ⟨rfl, ?_, rfl⟩
  intro h
  exact JsNum.noConfusion h

/-- C6 — amended. Both sum implementations are total and return `0` on
the empty sequence, but only the Reports-view sum
(`sum + (parseFloat(x) || 0)`) is defensive: there every malformed
amount contributes `0` and the total is always the finite sum of the
coerced amounts. In the Overview sum (`Number(sum) + Number(x)`) only
`null` coerces to `0`; a non-numeric string or `undefined` amount
coerces to `NaN` and the whole total becomes `NaN`. -/
theorem sumAmounts_defensive_spec (l : List DashTx) (t : DashTx) :
    totalExpensesOverview ([] : List DashTx) = JsNum.fin 0 ∧
    totalExpensesReports ([] : List DashTx) = 0 ∧
    totalExpensesReports l = (l.map (fun x => parseFloatOrZero x.amount)).sum ∧
    (t.amount = RawAmount.badStr ∨ t.amount = RawAmount.nullV ∨
        t.amount = RawAmount.undef →
      totalExpensesReports (t :: l) = totalExpensesReports l) ∧
    (t.amount = RawAmount.badStr ∨ t.amount = RawAmount.undef →
      totalExpensesOverview (t :: l) = JsNum.nan) := by
  refine ⟨rfl, rfl, totalExpensesReports_eq_sum l, ?_, ?_⟩
  · intro h
    rw [totalExpensesReports_eq_sum, totalExpensesReports_eq_sum]
    rcases h with h | h | h <;> simp [h, parseFloatOrZero]
  · intro h
    have hnan : jsNumber t.amount = JsNum.nan := by
      rcases h with h | h <;> simp [h, jsNumber]
    rw [totalExpensesOverview_eq_jsSumR]
    have : ∀ L : List JsNum, jsSumR (JsNum.nan :: L) = JsNum.nan := by
      intro L; simp [jsSumR, jsAdd]
    simp only [List.map_cons, hnan, jsSumR, jsAdd]

/-- C6 — witness: the amended statement applied to a list holding one
well-formed and one malformed amount, headed by a malformed entry. -/
theorem sumAmounts_defensive_spec_witness :
    (DashTx.amount ⟨2024, 0, RawAmount.badStr, none⟩ = RawAmount.badStr ∨
      DashTx.amount ⟨2024, 0, RawAmount.badStr, none⟩ = RawAmount.nullV ∨
      DashTx.amount ⟨2024, 0, RawAmount.badStr, none⟩ = RawAmount.undef) ∧
    totalExpensesReports
      [⟨2024, 0, RawAmount.badStr, none⟩, ⟨2024, 0, RawAmount.num 7, none⟩] =
      totalExpensesReports [⟨2024, 0, RawAmount.num 7, none⟩] :=
  ⟨Or.inl rfl,
   (sumAmounts_defensive_spec [⟨2024, 0, RawAmount.num 7, none⟩]
      ⟨2024, 0, RawAmount.badStr, none⟩).2.2.2.1 (Or.inl rfl)⟩

/-! ## Category breakdown, concrete grouping and ranking -/

/-- Decidable check that a ranked category list is sorted by amount
strictly descending, with equal amounts ordered by category name
ascending. -/
def rankedOrderOK : List (String × ℚ) → Bool
  | [] => true
  | [_] => true
  | x :: y :: rest =>
      (decide (y.2 < x.2) || (decide (x.2 = y.2) && decide (x.1 ≤ y.1))) &&
        rankedOrderOK (y :: rest)

/-- The C5 sample input: two "Food" expenses of 10 and 20, and one
expense of 5 with no category. -/
def c5Input : List DashTx :=
  [⟨2024, 0, RawAmount.num 10, some "Food"⟩,
   ⟨2024, 0, RawAmount.num 20, some "Food"⟩,
   ⟨2024, 0, RawAmount.num 5, none⟩]

/-- C5: on the sample input, the Overview grouping maps "Food" to
amount 30 with count 2 and the fallback label ("Other" in Overview) to
amount 5 with count 1; the Reports grouping maps "Food" to 30 and its
fallback label "Uncategorized" to 5; the rendered ranked list is
[Food(30), Uncategorized(5)], which is sorted by amount descending with
ties broken by name ascending. -/
theorem categoryBreakdown_spec :
    expensesByCategory c5Input =
      [("Food", JsNum.fin 30, 2), ("Other", JsNum.fin 5, 1)] ∧
    categoryBreakdown c5Input = [("Food", 30), ("Uncategorized", 5)] ∧
    rankedCategories (categoryBreakdown c5Input) =
      [("Food", 30), ("Uncategorized", 5)] ∧
    rankedOrderOK (rankedCategories (categoryBreakdown c5Input)) = true := by
  refine ⟨?_, ?_, ?_, ?_⟩
  · norm_num +decide [c5Input, expensesByCategory, bumpCategory, catNameOverview,
      jsNumber, jsAdd]
  · norm_num +decide [c5Input, categoryBreakdown, bumpCategoryReports, catNameReports,
      parseFloatOrZero]
  · norm_num +decide [c5Input, categoryBreakdown, bumpCategoryReports, catNameReports,
      parseFloatOrZero, rankedCategories, insertByAmountDesc]
  · norm_num +decide [c5Input, categoryBreakdown, bumpCategoryReports, catNameReports,
      parseFloatOrZero, rankedCategories, insertByAmountDesc, rankedOrderOK]

/-! ## Monthly trend: density, ordering, per-month sums -/

theorem monthlyTrend_eq_entries (E D : List DashTx) (y m : Int) :
    monthlyTrend E D y m =
      [trendEntry E D y m 5, trendEntry E D y m 4, trendEntry E D y m 3,
       trendEntry E D y m 2, trendEntry E D y m 1, trendEntry E D y m 0] := by
  have h : List.range 6 = [0, 1, 2, 3, 4, 5] := rfl
  simp [monthlyTrend, h]

theorem trendEntry_absMonth (E D : List DashTx) (y m i : Int) :
    12 * (trendEntry E D y m i).year + (trendEntry E D y m i).month =
      12 * y + m - i := by
  simp only [trendEntry, normalizeMonth]
  omega

theorem trendEntry_expenses_sum (E D : List DashTx) (y m i : Int) :
    (trendEntry E D y m i).expenses =
      jsSumR ((E.filter (fun t =>
        t.dateMonth = (trendEntry E D y m i).month ∧
        t.dateYear = (trendEntry E D y m i).year)).map (fun t => jsNumber t.amount)) := by
  simp only [trendEntry]
  rw [foldl_jsAdd_map_aux, jsAdd_zero_left]

theorem trendEntry_deposits_sum (E D : List DashTx) (y m i : Int) :
    (trendEntry E D y m i).deposits =
      jsSumR ((D.filter (fun t =>
        t.dateMonth = (trendEntry E D y m i).month ∧
        t.dateYear = (trendEntry E D y m i).year)).map (fun t => jsNumber t.amount)) := by
  simp only [trendEntry]
  rw [foldl_jsAdd_map_aux, jsAdd_zero_left]

theorem trendEntry_expenses_empty (E D : List DashTx) (y m i : Int)
    (hnone : ∀ t ∈ E, ¬ (t.dateMonth = (trendEntry E D y m i).month ∧
      t.dateYear = (trendEntry E D y m i).year)) :
    (trendEntry E D y m i).expenses = JsNum.fin 0 := by
  rw [trendEntry_expenses_sum]
  have h : E.filter (fun t => t.dateMonth = (trendEntry E D y m i).month ∧
      t.dateYear = (trendEntry E D y m i).year) = [] := by
    rw [List.filter_eq_nil_iff]
    intro t ht
    simpa using hnone t ht
  rw [h]
  rfl

/-- C4: `monthlyTrend` is dense and ordered. It returns exactly 6
entries; the entry at index `j` describes the calendar month whose
absolute month index (`12*year + month`) is `12*refYear + refMonth - 5 + j`,
so the entries cover the 6 consecutive months ending at the reference
month, oldest first, and the last entry is the reference month itself;
each entry's expense and deposit totals are the sums of the coerced
amounts of the transactions dated in that entry's month; a month with no
matching transactions contributes totals of `0`, never a missing
entry. -/
theorem monthlyTrend_spec (E D : List DashTx) (y m : Int)
    (hm0 : 0 ≤ m) (hm1 : m < 12) :
    (monthlyTrend E D y m).length = 6 ∧
    (∀ j : ℕ, j < 6 →
      ((monthlyTrend E D y m)[j]?.map (fun e => 12 * e.year + e.month)) =
        some (12 * y + m - 5 + j)) ∧
    ((monthlyTrend E D y m)[5]?.map (fun e => (e.year, e.month))) = some (y, m) ∧
    (∀ e ∈ monthlyTrend E D y m,
      e.expenses = jsSumR ((E.filter (fun t =>
          t.dateMonth = e.month ∧ t.dateYear = e.year)).map
          (fun t => jsNumber t.amount)) ∧
      e.deposits = jsSumR ((D.filter (fun t =>
          t.dateMonth = e.month ∧ t.dateYear = e.year)).map
          (fun t => jsNumber t.amount))) ∧
    (∀ e ∈ monthlyTrend E D y m,
      (∀ t ∈ E, ¬ (t.dateMonth = e.month ∧ t.dateYear = e.year)) →
        e.expenses = JsNum.fin 0) := by
  refine ⟨?_, ?_, ?_, ?_, ?_⟩
  · rw [monthlyTrend_eq_entries]; rfl
  · intro j hj
    interval_cases j <;>
      · simp only [monthlyTrend_eq_entries, List.getElem?_cons_zero,
          List.getElem?_cons_succ, Option.map_some']
        rw [trendEntry_absMonth, Option.some.injEq]
        omega
  · rw [monthlyTrend_eq_entries]
    simp only [List.getElem?_cons_succ, List.getElem?_cons_zero, Option.map_some']
    rw [Option.some.injEq]
    simp only [trendEntry, normalizeMonth]
    have h1 : (m - 0) / 12 = 0 := by omega
    have h2 : (m - 0) % 12 = m := by omega
    rw [h1, h2]
    simp
  · intro e he
    rw [monthlyTrend_eq_entries] at he
    simp only [List.mem_cons, List.not_mem_nil, or_false] at he
    rcases he with h | h | h | h | h | h <;> subst h <;>
      exact ⟨trendEntry_expenses_sum E D y m _, trendEntry_deposits_sum E D y m _⟩
  · intro e he hnone
    rw [monthlyTrend_eq_entries] at he
    simp only [List.mem_cons, List.not_mem_nil, or_false] at he
    rcases he with h | h | h | h | h | h <;> subst h <;>
      exact trendEntry_expenses_empty E D y m _ hnone

/-- C4 — witness: the trend over a single April-2024 expense with
reference month April 2024 (`m = 3`), hypotheses discharged
concretely. -/
theorem monthlyTrend_spec_witness :
    (0 : Int) ≤ 3 ∧ (3 : Int) < 12 ∧
    (monthlyTrend [⟨2024, 3, RawAmount.num 10, none⟩] [] 2024 3).length = 6 :=
  ⟨by norm_num, by norm_num,
   (monthlyTrend_spec [⟨2024, 3, RawAmount.num 10, none⟩] [] 2024 3
      (by norm_num) (by norm_num)).1⟩

/-! ## Purity, remaining-budget clamp, recent-activity cap -/

/-- C8: aggregation is deterministic and free of hidden state. The
embedded aggregation functions take the transaction list and the
reference month/year (the source's `new Date()` values, fixed for the
render) as their only inputs; two invocations on the same inputs are
identical, and outputs depend on nothing but those explicit inputs (the
inputs themselves are immutable values, so no mutation is possible). -/
theorem aggregation_pure (items items' : List DashTx)
    (month year month' year' : Int) (E E' : List DashTx) :
    sumForMonth items month year = sumForMonth items month year ∧
    (items = items' → month = month' → year = year' →
      sumForMonth items month year = sumForMonth items' month' year') ∧
    expensesByCategory E = expensesByCategory E ∧
    (E = E' → expensesByCategory E = expensesByCategory E') := by
  refine ⟨rfl, ?_, rfl, ?_⟩
  · intro h1 h2 h3; rw [h1, h2, h3]
  · intro h; rw [h]

/-- C8 — witness: two invocations on a fixed singleton list and fixed
reference month agree. -/
theorem aggregation_pure_witness :
    sumForMonth [⟨2024, 3, RawAmount.num 10, none⟩] 3 2024 =
      sumForMonth [⟨2024, 3, RawAmount.num 10, none⟩] 3 2024 ∧
    expensesByCategory [⟨2024, 3, RawAmount.num 10, none⟩] =
      expensesByCategory [⟨2024, 3, RawAmount.num 10, none⟩] :=
  ⟨(aggregation_pure [⟨2024, 3, RawAmount.num 10, none⟩]
      [⟨2024, 3, RawAmount.num 10, none⟩] 3 2024 3 2024 [] []).2.1 rfl rfl rfl,
   (aggregation_pure [] [] 0 0 0 0 [⟨2024, 3, RawAmount.num 10, none⟩]
      [⟨2024, 3, RawAmount.num 10, none⟩]).2.2.2 rfl⟩

/-- C9: the displayed remaining budget is clamped at zero. Both the
table's "Remaining" cell and every chart-data row compute
`max 0 (amountLimit - spentAmount)`, so the value is never negative,
and it is exactly `0` whenever spending exceeds the limit. -/
theorem remaining_clamped (bs : List Budget) (b : Budget) (r : ChartRow)
    (hr : r ∈ chartData bs) :
    remainingCell b = max 0 (b.amountLimit - b.spentAmount) ∧
    0 ≤ remainingCell b ∧
    (b.amountLimit < b.spentAmount → remainingCell b = 0) ∧
    r.remaining = max 0 (r.limit - r.spent) ∧
    0 ≤ r.remaining ∧
    (r.limit < r.spent → r.remaining = 0) := by
  simp only [chartData, List.mem_map] at hr
  obtain ⟨b', _, rfl⟩ := hr
  refine ⟨rfl, le_max_left 0 _, ?_, rfl, le_max_left 0 _, ?_⟩
  · intro h
    rw [remainingCell, max_eq_left (by linarith)]
  · intro h
    simp only at h ⊢
    rw [max_eq_left (by linarith)]

/-- C9 — witness: the clamp applied to an over-spent budget
(limit 100, spent 150) appearing in a one-element budget list. -/
theorem remaining_clamped_witness :
    ({ month := 4, limit := 100, spent := 150, remaining := max 0 (100 - 150) } : ChartRow) ∈
      chartData [⟨4, 2024, 100, 150, 80⟩] ∧
    remainingCell ⟨4, 2024, 100, 150, 80⟩ =
      max 0 ((100 : ℚ) - 150) :=
  ⟨by simp [chartData],
   (remaining_clamped [⟨4, 2024, 100, 150, 80⟩] ⟨4, 2024, 100, 150, 80⟩
      { month := 4, limit := 100, spent := 150, remaining := max 0 (100 - 150) }
      (by simp [chartData])).1⟩

/-- C10: the recent-activity lists are length-capped. `slice(0, 5)` is
`take 5`: the result holds the first `min 5 length` elements of the
input in input order — element `i` of the output is element `i` of the
input for `i < 5` and absent otherwise — and never exceeds 5 entries. -/
theorem recent_lists_capped (e d : List DashTx) :
    (recentExpenses e).length = min 5 e.length ∧
    (recentDeposits d).length = min 5 d.length ∧
    (∀ i : ℕ, (recentExpenses e)[i]? = if i < 5 then e[i]? else none) ∧
    (∀ i : ℕ, (recentDeposits d)[i]? = if i < 5 then d[i]? else none) ∧
    (recentExpenses e).length ≤ 5 ∧ (recentDeposits d).length ≤ 5 := by
  refine ⟨List.length_take 5 e, List.length_take 5 d, ?_, ?_, ?_, ?_⟩
  · intro i
    by_cases h : i < 5
    · rw [if_pos h]; exact List.getElem?_take_of_lt h
    · rw [if_neg h]; exact List.getElem?_take_eq_none (by omega)
  · intro i
    by_cases h : i < 5
    · rw [if_pos h]; exact List.getElem?_take_of_lt h
    · rw [if_neg h]; exact List.getElem?_take_eq_none (by omega)
  · exact List.length_take_le 5 e
  · exact List.length_take_le 5 d
